import Mathlib

/-!
Shallow embedding of the FTP-SERVER-AWS repository (src/server.py, src/client.py).

The server accepts TCP connections; each connection runs `handle_client`, a loop
that reads one whitespace-tokenized command (`ls`, `get <name>`, `put <name> <size>`,
`shutdown`) and drives an S3-backed blob store.  We model:

  * bytes as `Nat`, byte sequences as `List Nat`;
  * the S3 bucket as an association list from object key to blob
    (content plus the LastModified string used by `ls` formatting);
  * one command-loop iteration (`server.py` lines 59-183) as the pure function
    `processCommand`, reading the peer-supplied data from a `CmdInput` record:
    the received command line, the ack bytes the peer will send for `get`
    (an ack `recv` that raises is identical to an empty ack in the code, lines
    108-114), the payload bytes the connection yields before EOF for `put`,
    and fault switches for the external world (S3 list error, S3 upload error,
    a `get` body stream that ends before `ContentLength` bytes, and per-chunk
    socket-send failures);
  * the session loop (lines 50-61) and the register/deregister bookkeeping on
    the `clients` list (lines 42-45 and 185-193) as `session_loop` and
    `handle_client`; an unhandled exception inside an iteration is the
    `SessEvent.raise` event, after which control reaches the `finally` block;
  * the accept loop and shutdown broadcast of `main` (lines 220-247) as
    `acceptLoop` and `shutdownBroadcast`.
-/

namespace FtpServer

/-- Read-chunk size, `BUFFER = 4096` in server.py line 13. -/
def BUFFER : Nat := 4096

/-- Model of `os.path.basename` on POSIX: the substring after the last `/`.
Implemented as a left fold that restarts the accumulator at each separator. -/
def pyBasename (s : String) : String :=
  String.mk (s.data.foldl (fun acc c => if c = '/' then [] else acc ++ [c]) [])

/-- Model of Python `str.lower()` (commands are ASCII). -/
def pyLower (s : String) : String :=
  String.mk (s.data.map Char.toLower)

/-- Whether a string strips to nothing, i.e. Python `not data.strip()`. -/
def isBlank (s : String) : Bool :=
  s.data.all Char.isWhitespace

/-- Accumulator-based splitter over characters: `acc` is the token being
built; whitespace ends it, empty tokens are never emitted. -/
def pySplitAux : List Char → List Char → List String
  | [], acc => if acc = [] then [] else [String.mk acc]
  | c :: rest, acc =>
    if c.isWhitespace then
      if acc = [] then pySplitAux rest []
      else String.mk acc :: pySplitAux rest []
    else pySplitAux rest (acc ++ [c])

/-- Model of Python `str.split()` with no arguments: split on whitespace runs,
discarding empty pieces (`.strip()` before `.split()` changes nothing). -/
def pySplit (s : String) : List String :=
  pySplitAux s.data []

/-- Model of Python `" ".join(parts)` (`String.intercalate` is avoided only
because its core implementation does not reduce inside the kernel). -/
def pyJoin : List String → String
  | [] => ""
  | [x] => x
  | x :: y :: rest => x ++ " " ++ pyJoin (y :: rest)

/-- Whitespace stripped from both ends, as `int()` does before parsing. -/
def stripChars (l : List Char) : List Char :=
  ((l.dropWhile Char.isWhitespace).reverse.dropWhile Char.isWhitespace).reverse

/-- Digits of a Python integer literal after the first digit: further digits,
optionally separated by single underscores (CPython `int()` accepts `1_0`). -/
def parseDigitsAux : List Char → Nat → Option Nat
  | [], acc => some acc
  | '_' :: rest, acc =>
    match rest with
    | [] => none
    | c :: rest' =>
      if c.isDigit then parseDigitsAux rest' (acc * 10 + (c.toNat - 48)) else none
  | c :: rest, acc =>
    if c.isDigit then parseDigitsAux rest (acc * 10 + (c.toNat - 48)) else none

/-- Nonempty digit sequence of a Python integer literal. -/
def parsePyNat : List Char → Option Nat
  | [] => none
  | c :: rest => if c.isDigit then parseDigitsAux rest (c.toNat - 48) else none

/-- Model of Python `int(str)` as used at server.py line 136: optional
surrounding whitespace, optional sign, decimal digits.  Returns `none` exactly
when CPython raises `ValueError`. -/
def pyInt? (s : String) : Option Int :=
  match stripChars s.data with
  | '-' :: rest => (parsePyNat rest).map (fun n => -(n : Int))
  | '+' :: rest => (parsePyNat rest).map (fun n => (n : Int))
  | l => (parsePyNat l).map (fun n => (n : Int))

/-- A stored object: its bytes and the LastModified string `ls` prints. -/
structure Blob where
  content : List Nat
  lastMod : String
deriving DecidableEq, Repr

/-- The S3 bucket contents, keyed by object key. -/
abbrev Store := List (String × Blob)

/-- Lookup an object by key (`s3.get_object`). -/
def storeGet : Store → String → Option Blob
  | [], _ => none
  | (n, b) :: rest, k => if n = k then some b else storeGet rest k

/-- Write an object, overwriting any existing object with the same key
(`s3.upload_file`; S3 keys are unique, collisions overwrite). -/
def storePut : Store → String → Blob → Store
  | [], k, b => [(k, b)]
  | (n, b') :: rest, k, b =>
    if n = k then (k, b) :: rest else (n, b') :: storePut rest k b

/-- One `conn.sendall` observed on the wire: either a control string or a raw
body chunk. -/
inductive Wire where
  | msg : String → Wire
  | chunk : List Nat → Wire
deriving DecidableEq, Repr

/-- Whether the command-loop iteration falls through to the next `recv`
(`continue` / loop bottom) or leaves the loop (`break`). -/
inductive Outcome where
  | cont
  | brk
deriving DecidableEq, Repr

/-- Peer-side and external-world data consumed by one command iteration. -/
structure CmdInput where
  /-- The decoded command data returned by the `recv` at line 52 (nonempty). -/
  line : String
  /-- Bytes the peer sends as the `get` acknowledgment (line 109); an ack
  `recv` that raises is indistinguishable from an empty ack (lines 110-114). -/
  ack : List Nat
  /-- Bytes the connection yields to the `put` read loop before EOF. -/
  payload : List Nat
  /-- Transport fault for `get`: the backend body stream ends after this many
  bytes even though `ContentLength` announced more; `none` means the stream
  delivers the full object. -/
  bodyTrunc : Option Nat
  /-- Whether the `conn.sendall` of the i-th body chunk succeeds (line 122). -/
  sendChunkOk : Nat → Bool
  /-- Whether `s3.upload_file` at line 159 succeeds. -/
  uploadOk : Bool
  /-- Whether the `ls` pagination at lines 74-83 succeeds. -/
  listOk : Bool
  /-- Message text of the external error, when one occurs. -/
  errText : String
  /-- LastModified stamp S3 assigns to an object committed by this `put`. -/
  newLastMod : String

/-- Result of one command-loop iteration. -/
structure CmdResult where
  store : Store
  flag : Bool
  trace : List Wire
  outcome : Outcome
  /-- Payload bytes actually read off the connection by the `put` read loop. -/
  payloadRead : List Nat
  /-- The object key handed to the storage backend, when the iteration reached
  a backend call (`Key=safe` at lines 100 and 159). -/
  backendKey : Option String
deriving DecidableEq, Repr

/-- The `put` read loop (lines 151-156): while bytes remain, `recv` at most
`min(BUFFER, remaining)` bytes; an empty `recv` (peer EOF) breaks out.  The
fuel argument only bounds iteration; `recvUpload` supplies enough fuel. -/
def recvLoopF : Nat → List Nat → Int → List Nat × Int
  | 0, _, remaining => ([], remaining)
  | fuel + 1, avail, remaining =>
    if remaining ≤ 0 then ([], remaining)
    else
      match avail with
      | [] => ([], remaining)
      | a :: rest =>
        let chunk := (a :: rest).take (min BUFFER remaining.toNat)
        let r := recvLoopF fuel ((a :: rest).drop (min BUFFER remaining.toNat))
                   (remaining - chunk.length)
        (chunk ++ r.1, r.2)

/-- Bytes collected and remaining count when the `put` read loop finishes,
given that the connection yields `avail` bytes before EOF. -/
def recvUpload (avail : List Nat) (remaining : Int) : List Nat × Int :=
  recvLoopF (avail.length + 1) avail remaining

/-- The `get` body loop (lines 117-124): read a `BUFFER`-sized chunk from the
backend stream, stop at stream end, send it, stop if the send fails.  Returns
the chunks that were successfully sent, in order. -/
def streamBodyF : Nat → List Nat → (Nat → Bool) → Nat → List (List Nat)
  | 0, _, _, _ => []
  | fuel + 1, body, ok, i =>
    match body with
    | [] => []
    | b :: rest =>
      if ok i then
        (b :: rest).take BUFFER :: streamBodyF fuel ((b :: rest).drop BUFFER) ok (i + 1)
      else []

/-- Chunks sent on the wire for a `get` body stream delivering `body`. -/
def streamBody (body : List Nat) (ok : Nat → Bool) : List (List Nat) :=
  streamBodyF (body.length + 1) body ok 0

/-- The body actually delivered by the backend stream: the full object, or a
truncated prefix when the transport fails mid-stream. -/
def deliveredBody (content : List Nat) (trunc : Option Nat) : List Nat :=
  match trunc with
  | none => content
  | some t => content.take t

/-- Raw body bytes appearing in a wire trace, in order. -/
def bodyBytes : List Wire → List Nat
  | [] => []
  | .msg _ :: rest => bodyBytes rest
  | .chunk c :: rest => c ++ bodyBytes rest

/-- The `f-string` width-12 right alignment used at line 83. -/
def padSize (n : Nat) : String :=
  String.mk (List.replicate (12 - (toString n).length) ' ') ++ toString n

/-- The lines `ls` produces, one per object (line 83). -/
def lsLines (st : Store) : List String :=
  st.map (fun p => padSize p.2.content.length ++ " " ++ p.2.lastMod ++ " " ++ p.1)

/-- Newline-joined response body, `"\\n".join(rsp_lines)` at line 87. -/
def joinLines : List String → String
  | [] => ""
  | [x] => x
  | x :: y :: rest => x ++ "\n" ++ joinLines (y :: rest)

/-- The `ls` branch (lines 71-89). -/
def lsCmd (st : Store) (flag : Bool) (inp : CmdInput) : CmdResult :=
  if inp.listOk then
    match st with
    | [] => ⟨st, flag, [.msg "No files in bucket\n"], .cont, [], none⟩
    | _ :: _ =>
      ⟨st, flag, [.msg (joinLines (lsLines st) ++ "\n")], .cont, [], none⟩
  else
    ⟨st, flag, [.msg ("ERR S3 list error: " ++ inp.errText ++ "\n")], .cont, [], none⟩

/-- The `get` branch (lines 92-127).  The requested name is
`" ".join(parts[1:])`, sanitized with `os.path.basename`; a missing object is
`ERR File not found`; otherwise the server sends `OK <size>` (no newline, line
106), waits for ack bytes, skips the body if the ack is empty, else streams the
body.  Every path ends back at the top of the command loop. -/
def getCmd (st : Store) (flag : Bool) (inp : CmdInput) (rest : List String) : CmdResult :=
  match rest with
  | [] => ⟨st, flag, [.msg "ERR Invalid GET format\n"], .cont, [], none⟩
  | r :: rs =>
    match storeGet st (pyBasename (pyJoin (r :: rs))) with
    | none =>
      ⟨st, flag, [.msg "ERR File not found\n"], .cont, [],
       some (pyBasename (pyJoin (r :: rs)))⟩
    | some blob =>
      if inp.ack = [] then
        ⟨st, flag, [.msg ("OK " ++ toString blob.content.length)], .cont, [],
         some (pyBasename (pyJoin (r :: rs)))⟩
      else
        ⟨st, flag,
         .msg ("OK " ++ toString blob.content.length) ::
           (streamBody (deliveredBody blob.content inp.bodyTrunc) inp.sendChunkOk).map
             Wire.chunk,
         .cont, [], some (pyBasename (pyJoin (r :: rs)))⟩

/-- The `put` branch (lines 130-174).  The trailing token is parsed with
`int(...)`; failure is `ERR Invalid filesize`.  Otherwise the server sends
`OK`, runs the read loop, and uploads whatever was received - the loop's
leftover `remaining` is never consulted afterwards, so a short transfer is
still uploaded and acknowledged `OK Uploaded`. -/
def putCmd (st : Store) (flag : Bool) (inp : CmdInput) (rest : List String) : CmdResult :=
  if rest.length < 2 then
    ⟨st, flag, [.msg "ERR Invalid PUT format\n"], .cont, [], none⟩
  else
    match pyInt? (rest.getLastD "") with
    | none => ⟨st, flag, [.msg "ERR Invalid filesize\n"], .cont, [], none⟩
    | some filesize =>
      if inp.uploadOk then
        ⟨storePut st (pyBasename (pyJoin rest.dropLast))
           ⟨(recvUpload inp.payload filesize).1, inp.newLastMod⟩,
         flag, [.msg "OK", .msg "OK Uploaded\n"], .cont,
         (recvUpload inp.payload filesize).1,
         some (pyBasename (pyJoin rest.dropLast))⟩
      else
        ⟨st, flag,
         [.msg "OK", .msg ("ERR Upload failed: " ++ inp.errText ++ "\n")], .cont,
         (recvUpload inp.payload filesize).1,
         some (pyBasename (pyJoin rest.dropLast))⟩

/-- Dispatch on the lowercased first token (lines 68, 71, 92, 130, 177, 182). -/
def dispatch (st : Store) (flag : Bool) (inp : CmdInput) (tok : String)
    (rest : List String) : CmdResult :=
  if pyLower tok = "ls" then lsCmd st flag inp
  else if pyLower tok = "get" then getCmd st flag inp rest
  else if pyLower tok = "put" then putCmd st flag inp rest
  else if pyLower tok = "shutdown" then
    ⟨st, true, [.msg "OK Shutting down\n"], .brk, [], none⟩
  else
    ⟨st, flag, [.msg "ERR Unknown command\n"], .cont, [], none⟩

/-- One iteration of the command loop on received data (lines 63-183): strip,
skip blank input, tokenize, dispatch. -/
def processCommand (st : Store) (flag : Bool) (inp : CmdInput) : CmdResult :=
  if isBlank inp.line then ⟨st, flag, [], .cont, [], none⟩
  else
    match pySplit inp.line with
    | [] => ⟨st, flag, [], .cont, [], none⟩
    | tok :: rest => dispatch st flag inp tok rest

/-- What the session worker observes on one trip through the `while` head
(lines 50-61): a `recv` timeout (loop back), an `OSError` (break), peer EOF
(break), actual command data, or an unhandled exception somewhere in the
iteration (propagates out of the loop to the `finally` block). -/
inductive SessEvent where
  | timeout
  | oserror
  | eof
  | raise
  | data (inp : CmdInput)

/-- How the session loop was left. -/
inductive ExitKind where
  | peerEof
  | fault
  | brk
  | raised
  | shutdownFlag
  | pending
deriving DecidableEq, Repr

/-- Accumulated effect of the session loop. -/
structure LoopResult where
  store : Store
  flag : Bool
  wire : List Wire
  exit : ExitKind
deriving Repr

/-- The command loop of `handle_client` (lines 50-183): re-check the shutdown
flag before every `recv`; dispatch received data; a `shutdown` command (or any
other `break`-producing outcome) leaves the loop.  `pending` means the event
list ran out while the session was still blocked in `recv`. -/
def session_loop : List SessEvent → Store → Bool → LoopResult
  | [], st, fl => ⟨st, fl, [], .pending⟩
  | e :: rest, st, fl =>
    if fl then ⟨st, fl, [], .shutdownFlag⟩
    else
      match e with
      | .timeout => session_loop rest st fl
      | .oserror => ⟨st, fl, [], .fault⟩
      | .eof => ⟨st, fl, [], .peerEof⟩
      | .raise => ⟨st, fl, [], .raised⟩
      | .data inp =>
        let r := processCommand st fl inp
        match r.outcome with
        | .brk => ⟨r.store, r.flag, r.trace, .brk⟩
        | .cont =>
          let r2 := session_loop rest r.store r.flag
          ⟨r2.store, r2.flag, r.trace ++ r2.wire, r2.exit⟩

/-- A mutation of the `clients` registry; `locked` records that it was
performed inside `with clients_lock:`. -/
inductive RegEvent where
  | register (locked : Bool)
  | deregister (locked : Bool)
deriving DecidableEq, Repr

/-- Full effect of one `handle_client` call, registry bookkeeping included. -/
structure SessionRun where
  /-- The registry right after `clients.append(conn)` (lines 43-44). -/
  regAtStart : List Nat
  /-- The registry after the `finally` block ran (lines 185-188). -/
  regAtEnd : List Nat
  regTrace : List RegEvent
  store : Store
  flag : Bool
  wire : List Wire
  exit : ExitKind

/-- `handle_client` (lines 42-193): append `conn` to the registry under the
lock, run the command loop, and - in `finally`, reached on every exit
including exceptions - remove `conn` under the lock if it is present. -/
def handle_client (conn : Nat) (events : List SessEvent) (reg : List Nat)
    (st : Store) (fl : Bool) : SessionRun :=
  ⟨reg ++ [conn],
   if conn ∈ reg ++ [conn] then (reg ++ [conn]).erase conn else reg ++ [conn],
   [.register true, .deregister true],
   (session_loop events st fl).store,
   (session_loop events st fl).flag,
   (session_loop events st fl).wire,
   (session_loop events st fl).exit⟩

/-- What the accept loop of `main` observes per iteration (lines 221-230):
an accept-side timeout, an `OSError` on the listening socket, the shutdown
flag becoming set (by a worker or a signal), or an accepted connection. -/
inductive AcceptEvent where
  | timeout
  | oserror
  | flagSet
  | accept (conn : Nat)

/-- The accept loop (lines 221-230): while the shutdown flag is unset, accept
and spawn; returns the connections for which a worker was spawned. -/
def acceptLoop : List AcceptEvent → Bool → List Nat
  | [], _ => []
  | e :: rest, fl =>
    if fl then []
    else
      match e with
      | .timeout => acceptLoop rest fl
      | .oserror => []
      | .flagSet => acceptLoop rest true
      | .accept c => c :: acceptLoop rest fl

/-- The forced-close sequence applied to each registered connection when the
accept loop exits (lines 235-247). -/
def closeActions : List String := ["SHUTDOWN", "shutdown_rdwr", "close"]

/-- The shutdown broadcast of `main`'s `finally` block (lines 233-247): every
connection still in the registry is sent `SHUTDOWN`, half-closed, and closed. -/
def shutdownBroadcast (reg : List Nat) : List (Nat × List String) :=
  reg.map (fun c => (c, closeActions))

/-! Concrete inputs used by witnesses and counterexamples. -/

/-- A mixed-case `shutdown` command from an unauthenticated peer. -/
def shutdownCmdInput : CmdInput :=
  ⟨"ShUtDoWn", [], [], none, fun _ => true, true, true, "", ""⟩

/-- A `put` announcing 1000 bytes whose connection yields 200 bytes then EOF. -/
def c2Input : CmdInput :=
  ⟨"put f.txt 1000", [], List.replicate 200 7, none, fun _ => true, true, true, "", "tm"⟩

/-- A bucket holding one 5-byte object named `f`. -/
def c3Store : Store := [("f", ⟨[1, 2, 3, 4, 5], "tm"⟩)]

/-- A `get f` whose backend body stream dies after 2 of the 5 bytes. -/
def c3Input : CmdInput :=
  ⟨"get f", [1], [], some 2, fun _ => true, true, true, "", ""⟩

/-- A `get f` whose backend body stream dies after 3 of the 5 bytes. -/
def c3wInput : CmdInput :=
  ⟨"get f", [2, 2], [], some 3, fun _ => true, true, true, "", ""⟩

/-- A bare `shutdown` line. -/
def c4Input : CmdInput :=
  ⟨"shutdown", [], [], none, fun _ => true, true, true, "", ""⟩

/-- A line whose first token is not a recognized command. -/
def c4wInput : CmdInput :=
  ⟨"foo bar", [], [], none, fun _ => true, true, true, "", ""⟩

/-- A `put` whose size token is a negative integer, with payload available. -/
def c5Input : CmdInput :=
  ⟨"put x -5", [], [9, 9], none, fun _ => true, true, true, "", ""⟩

/-- A `put` whose size token is not an integer at all. -/
def c5wInput : CmdInput :=
  ⟨"put a b", [], [4], none, fun _ => true, true, true, "", ""⟩

/-- A complete 3-byte upload under name `f`. -/
def c1PutInput : CmdInput :=
  ⟨"put f 3", [], [7, 8, 9], none, fun _ => true, true, true, "", "tm"⟩

/-- A download of `f` with a nonempty ack and a healthy connection. -/
def c1GetInput : CmdInput :=
  ⟨"get f", [1], [], none, fun _ => true, true, true, "", "tm"⟩

/-- A `get` whose requested name contains a path separator. -/
def c6GetInput : CmdInput :=
  ⟨"get a/b", [], [], none, fun _ => true, true, true, "", ""⟩

/-- A `put` whose requested name attempts path traversal. -/
def c6PutInput : CmdInput :=
  ⟨"put ../x 3", [], [1, 2, 3], none, fun _ => true, true, true, "", ""⟩

/-- A bucket holding one 2-byte object named `g`. -/
def c7Store : Store := [("g", ⟨[4, 5], "tm"⟩)]

/-- A `get g` whose peer never sends acknowledgment bytes. -/
def c7Input : CmdInput :=
  ⟨"get g", [], [], none, fun _ => true, true, true, "", ""⟩

/-- A `put` declaring size `-5`; the connection has bytes available. -/
def c10Input : CmdInput :=
  ⟨"put name -5", [], [1, 2, 3], none, fun _ => true, true, true, "", "tm"⟩

/-! Helper lemmas. -/

theorem bodyBytes_nil : bodyBytes [] = [] := rfl

theorem bodyBytes_msg (s : String) (tr : List Wire) :
    bodyBytes (.msg s :: tr) = bodyBytes tr := rfl

theorem bodyBytes_chunk (c : List Nat) (tr : List Wire) :
    bodyBytes (.chunk c :: tr) = c ++ bodyBytes tr := rfl

theorem pySplitAux_blank :
    ∀ l : List Char, l.all Char.isWhitespace = true → pySplitAux l [] = [] := by
  intro l
  induction l with
  | nil => intro _; rfl
  | cons c rest ih =>
    intro h
    rw [List.all_cons, Bool.and_eq_true] at h
    simp only [pySplitAux, h.1, if_true, if_pos rfl]
    exact ih h.2

theorem pySplit_blank (s : String) (h : isBlank s = true) : pySplit s = [] :=
  pySplitAux_blank s.data h

theorem processCommand_parts (st : Store) (fl : Bool) (inp : CmdInput)
    (tok : String) (rest : List String)
    (h1 : pySplit inp.line = tok :: rest) :
    processCommand st fl inp = dispatch st fl inp tok rest := by
  have hb : isBlank inp.line = false := by
    cases hb : isBlank inp.line with
    | false => rfl
    | true => rw [pySplit_blank inp.line hb] at h1; simp at h1
  simp only [processCommand, hb, Bool.false_eq_true, if_false, h1]

theorem dispatch_get (st : Store) (fl : Bool) (inp : CmdInput) (tok : String)
    (rest : List String) (h : pyLower tok = "get") :
    dispatch st fl inp tok rest = getCmd st fl inp rest := by
  unfold dispatch
  rw [h, if_neg (by decide : ¬ ("get" : String) = "ls"), if_pos rfl]

theorem dispatch_put (st : Store) (fl : Bool) (inp : CmdInput) (tok : String)
    (rest : List String) (h : pyLower tok = "put") :
    dispatch st fl inp tok rest = putCmd st fl inp rest := by
  unfold dispatch
  rw [h, if_neg (by decide : ¬ ("put" : String) = "ls"),
    if_neg (by decide : ¬ ("put" : String) = "get"), if_pos rfl]

theorem dispatch_shutdown (st : Store) (fl : Bool) (inp : CmdInput) (tok : String)
    (rest : List String) (h : pyLower tok = "shutdown") :
    dispatch st fl inp tok rest =
      ⟨st, true, [.msg "OK Shutting down\n"], .brk, [], none⟩ := by
  unfold dispatch
  rw [h, if_neg (by decide : ¬ ("shutdown" : String) = "ls"),
    if_neg (by decide : ¬ ("shutdown" : String) = "get"),
    if_neg (by decide : ¬ ("shutdown" : String) = "put"), if_pos rfl]

theorem dispatch_other (st : Store) (fl : Bool) (inp : CmdInput) (tok : String)
    (rest : List String) (h1 : pyLower tok ≠ "ls") (h2 : pyLower tok ≠ "get")
    (h3 : pyLower tok ≠ "put") (h4 : pyLower tok ≠ "shutdown") :
    dispatch st fl inp tok rest =
      ⟨st, fl, [.msg "ERR Unknown command\n"], .cont, [], none⟩ := by
  unfold dispatch
  rw [if_neg h1, if_neg h2, if_neg h3, if_neg h4]

theorem putCmd_parsed (st : Store) (fl : Bool) (inp : CmdInput)
    (rest : List String) (z : Int)
    (hlen : 2 ≤ rest.length) (hz : pyInt? (rest.getLastD "") = some z) :
    putCmd st fl inp rest =
      if inp.uploadOk then
        ⟨storePut st (pyBasename (pyJoin rest.dropLast))
           ⟨(recvUpload inp.payload z).1, inp.newLastMod⟩,
         fl, [.msg "OK", .msg "OK Uploaded\n"], .cont,
         (recvUpload inp.payload z).1,
         some (pyBasename (pyJoin rest.dropLast))⟩
      else
        ⟨st, fl, [.msg "OK", .msg ("ERR Upload failed: " ++ inp.errText ++ "\n")],
         .cont, (recvUpload inp.payload z).1,
         some (pyBasename (pyJoin rest.dropLast))⟩ := by
  unfold putCmd
  rw [if_neg (by omega), hz]

theorem putCmd_noparse (st : Store) (fl : Bool) (inp : CmdInput)
    (rest : List String)
    (hlen : 2 ≤ rest.length) (hz : pyInt? (rest.getLastD "") = none) :
    putCmd st fl inp rest =
      ⟨st, fl, [.msg "ERR Invalid filesize\n"], .cont, [], none⟩ := by
  unfold putCmd
  rw [if_neg (by omega), hz]

theorem getCmd_found (st : Store) (fl : Bool) (inp : CmdInput)
    (r : String) (rs : List String) (blob : Blob)
    (h : storeGet st (pyBasename (pyJoin (r :: rs))) = some blob) :
    getCmd st fl inp (r :: rs) =
      if inp.ack = [] then
        ⟨st, fl, [.msg ("OK " ++ toString blob.content.length)], .cont, [],
         some (pyBasename (pyJoin (r :: rs)))⟩
      else
        ⟨st, fl,
         .msg ("OK " ++ toString blob.content.length) ::
           (streamBody (deliveredBody blob.content inp.bodyTrunc) inp.sendChunkOk).map
             Wire.chunk,
         .cont, [], some (pyBasename (pyJoin (r :: rs)))⟩ := by
  simp only [getCmd]
  rw [h]

theorem getCmd_key (st : Store) (fl : Bool) (inp : CmdInput)
    (r : String) (rs : List String) :
    (getCmd st fl inp (r :: rs)).backendKey =
      some (pyBasename (pyJoin (r :: rs))) := by
  simp only [getCmd]
  cases storeGet st (pyBasename (pyJoin (r :: rs))) with
  | none => rfl
  | some blob =>
    by_cases hack : inp.ack = [] <;> simp [hack]

theorem recvLoopF_all :
    ∀ (fuel : Nat) (avail : List Nat), avail.length < fuel →
      recvLoopF fuel avail (avail.length : Int) = (avail, 0) := by
  intro fuel
  induction fuel with
  | zero => intro avail h; exact absurd h (Nat.not_lt_zero _)
  | succ n ih =>
    intro avail h
    cases avail with
    | nil => simp [recvLoopF]
    | cons a l =>
      simp only [recvLoopF]
      rw [if_neg (by simp only [List.length_cons]; omega)]
      have htn : (((a :: l).length : Int)).toNat = (a :: l).length := Int.toNat_natCast _
      rw [htn]
      have hk1 : min BUFFER (a :: l).length ≤ (a :: l).length := min_le_right _ _
      have hkpos : 1 ≤ min BUFFER (a :: l).length := by
        simp only [BUFFER, List.length_cons]
        omega
      have htake : ((a :: l).take (min BUFFER (a :: l).length)).length
          = min BUFFER (a :: l).length := by
        rw [List.length_take]
        omega
      have harg : ((a :: l).length : Int)
            - (((a :: l).take (min BUFFER (a :: l).length)).length : Int)
          = (((a :: l).drop (min BUFFER (a :: l).length)).length : Int) := by
        rw [htake, List.length_drop]
        omega
      rw [harg, ih _ (by rw [List.length_drop]; omega)]
      simp [List.take_append_drop]

theorem recvUpload_exact (avail : List Nat) :
    recvUpload avail (avail.length : Int) = (avail, 0) :=
  recvLoopF_all _ _ (Nat.lt_succ_self _)

theorem recvUpload_nonpos (avail : List Nat) (z : Int) (hz : z ≤ 0) :
    recvUpload avail z = ([], z) := by
  unfold recvUpload
  simp only [recvLoopF]
  rw [if_pos hz]

theorem streamBodyF_cons_ok (n : Nat) (b : Nat) (l : List Nat) (ok : Nat → Bool)
    (i : Nat) (hok : ok i = true) :
    streamBodyF (n + 1) (b :: l) ok i
      = (b :: l).take BUFFER :: streamBodyF n ((b :: l).drop BUFFER) ok (i + 1) := by
  simp [streamBodyF, hok]

theorem streamBodyF_cons_fail (n : Nat) (b : Nat) (l : List Nat) (ok : Nat → Bool)
    (i : Nat) (hok : ok i = false) :
    streamBodyF (n + 1) (b :: l) ok i = [] := by
  simp [streamBodyF, hok]

theorem streamBodyF_true :
    ∀ (fuel : Nat) (body : List Nat) (i : Nat), body.length < fuel →
      bodyBytes ((streamBodyF fuel body (fun _ => true) i).map Wire.chunk) = body := by
  intro fuel
  induction fuel with
  | zero => intro body i h; exact absurd h (Nat.not_lt_zero _)
  | succ n ih =>
    intro body i h
    cases body with
    | nil => simp [streamBodyF, bodyBytes]
    | cons b l =>
      rw [streamBodyF_cons_ok _ _ _ _ _ rfl, List.map_cons, bodyBytes_chunk,
        ih _ (i + 1) (by rw [List.length_drop]; simp only [List.length_cons, BUFFER] at h ⊢; omega)]
      exact List.take_append_drop _ _

theorem streamBody_true (body : List Nat) :
    bodyBytes ((streamBody body (fun _ => true)).map Wire.chunk) = body :=
  streamBodyF_true _ _ _ (Nat.lt_succ_self _)

theorem streamBodyF_front :
    ∀ (fuel : Nat) (body : List Nat) (ok : Nat → Bool) (i : Nat), body.length < fuel →
      bodyBytes ((streamBodyF fuel body ok i).map Wire.chunk) <+: body := by
  intro fuel
  induction fuel with
  | zero => intro body ok i h; exact absurd h (Nat.not_lt_zero _)
  | succ n ih =>
    intro body ok i h
    cases body with
    | nil => simp [streamBodyF, bodyBytes]
    | cons b l =>
      cases hok : ok i with
      | true =>
        rw [streamBodyF_cons_ok _ _ _ _ _ hok, List.map_cons, bodyBytes_chunk]
        obtain ⟨t, ht⟩ := ih ((b :: l).drop BUFFER) ok (i + 1)
          (by rw [List.length_drop]; simp only [List.length_cons, BUFFER] at h ⊢; omega)
        exact ⟨t, by rw [List.append_assoc, ht, List.take_append_drop]⟩
      | false =>
        rw [streamBodyF_cons_fail _ _ _ _ _ hok]
        exact List.nil_prefix

theorem streamBody_front (body : List Nat) (ok : Nat → Bool) :
    bodyBytes ((streamBody body ok).map Wire.chunk) <+: body :=
  streamBodyF_front _ _ _ _ (Nat.lt_succ_self _)

theorem deliveredBody_front (content : List Nat) (trunc : Option Nat) :
    deliveredBody content trunc <+: content := by
  cases trunc with
  | none => exact List.prefix_refl _
  | some t => exact List.take_prefix _ _

theorem storeGet_storePut_self (st : Store) (k : String) (b : Blob) :
    storeGet (storePut st k b) k = some b := by
  induction st with
  | nil => simp [storePut, storeGet]
  | cons p rest ih =>
    obtain ⟨n, b'⟩ := p
    by_cases h : n = k
    · simp [storePut, storeGet, h]
    · simp [storePut, storeGet, h, ih]

theorem foldl_basename_no_slash :
    ∀ (l acc : List Char), '/' ∉ acc →
      '/' ∉ l.foldl (fun acc c => if c = '/' then [] else acc ++ [c]) acc := by
  intro l
  induction l with
  | nil => intro acc h; simpa using h
  | cons c rest ih =>
    intro acc h
    simp only [List.foldl_cons]
    by_cases hc : c = '/'
    · rw [if_pos hc]
      exact ih [] (by simp)
    · rw [if_neg hc]
      refine ih (acc ++ [c]) ?_
      intro hmem
      rcases List.mem_append.mp hmem with h1 | h2
      · exact h h1
      · exact hc (List.mem_singleton.mp h2).symm

theorem pyBasename_no_slash (s : String) : '/' ∉ (pyBasename s).data :=
  foldl_basename_no_slash s.data [] (by simp)

theorem erase_append_singleton (conn : Nat) :
    ∀ reg : List Nat, conn ∉ reg → (reg ++ [conn]).erase conn = reg := by
  intro reg
  induction reg with
  | nil => intro _; simp
  | cons r rest ih =>
    intro h
    simp only [List.mem_cons, not_or] at h
    have hne : r ≠ conn := fun hh => h.1 hh.symm
    rw [List.cons_append]
    simp [List.erase_cons, hne, ih h.2]

theorem processCommand_shutdown (st : Store) (fl : Bool) (inp : CmdInput)
    (tok : String) (rest : List String)
    (h1 : pySplit inp.line = tok :: rest) (h2 : pyLower tok = "shutdown") :
    processCommand st fl inp
      = ⟨st, true, [.msg "OK Shutting down\n"], .brk, [], none⟩ := by
  rw [processCommand_parts st fl inp tok rest h1, dispatch_shutdown st fl inp tok rest h2]

theorem session_loop_shutdown (st : Store) (events : List SessEvent) :
    session_loop (.data shutdownCmdInput :: events) st false
      = ⟨st, true, [.msg "OK Shutting down\n"], .brk⟩ := by
  have hp := processCommand_shutdown st false shutdownCmdInput "ShUtDoWn" []
    (by decide) (by decide)
  simp only [session_loop, Bool.false_eq_true, if_false, hp]

/-! Claim theorems. -/

set_option maxRecDepth 4000 in
/-- C2 (code bug): a `put` declaring 1000 bytes whose connection delivers only
200 bytes and then closes is not surfaced as an incomplete transfer: the code
uploads the 200-byte partial file as the blob and replies `OK Uploaded`, in
contradiction with the claim (and spec sections 4.2 clause 5, 8 and 9). -/
theorem incomplete_put_reports_success :
    (processCommand [] false c2Input).trace = [.msg "OK", .msg "OK Uploaded\n"] ∧
    storeGet (processCommand [] false c2Input).store "f.txt"
        = some ⟨List.replicate 200 7, "tm"⟩ ∧
    (processCommand [] false c2Input).payloadRead.length = 200 ∧
    (processCommand [] false c2Input).outcome = .cont := by
  refine ⟨by decide, by decide, by decide, by decide⟩

/-- C3 counterexample: a `get` of a 5-byte object whose backend stream dies
after 2 bytes does NOT terminate the session - the command loop continues
(outcome `cont`), after having announced `OK 5` and sent only 2 body bytes. -/
theorem truncated_get_session_continues :
    (processCommand c3Store false c3Input).outcome = .cont ∧
    (processCommand c3Store false c3Input).trace
        = [.msg "OK 5", .chunk [1, 2]] := by
  refine ⟨by decide, by decide⟩

/-- C3 (amended): when the `get` body transfer fails before `size` bytes
(backend stream ends early or a chunk send fails), the server stops mid-body
without padding - the body bytes sent are always a prefix of the stored
content, while the announced header still carries the full stored size - but
the session does not terminate: the command loop continues. -/
theorem get_stream_failure_prefix_and_continue
    (st : Store) (fl : Bool) (inp : CmdInput) (tok r : String) (rs : List String)
    (blob : Blob)
    (h1 : pySplit inp.line = tok :: r :: rs)
    (h2 : pyLower tok = "get")
    (h3 : storeGet st (pyBasename (pyJoin (r :: rs))) = some blob)
    (h4 : inp.ack ≠ []) :
    (processCommand st fl inp).outcome = .cont ∧
    (processCommand st fl inp).trace.head?
        = some (.msg ("OK " ++ toString blob.content.length)) ∧
    bodyBytes (processCommand st fl inp).trace <+: blob.content := by
  rw [processCommand_parts st fl inp tok (r :: rs) h1,
    dispatch_get st fl inp tok (r :: rs) h2,
    getCmd_found st fl inp r rs blob h3, if_neg h4]
  refine ⟨rfl, rfl, ?_⟩
  rw [bodyBytes_msg]
  exact (streamBody_front _ _).trans (deliveredBody_front _ _)

/-- C3 amended-claim witness at a concrete truncated stream. -/
theorem get_stream_failure_prefix_and_continue_witness :
    (processCommand c3Store false c3wInput).outcome = .cont ∧
    (processCommand c3Store false c3wInput).trace.head?
        = some (.msg ("OK " ++ toString ([1, 2, 3, 4, 5] : List Nat).length)) ∧
    bodyBytes (processCommand c3Store false c3wInput).trace <+: [1, 2, 3, 4, 5] :=
  get_stream_failure_prefix_and_continue c3Store false c3wInput "get" "f" []
    ⟨[1, 2, 3, 4, 5], "tm"⟩ (by decide) (by decide) (by decide) (by decide)

/-- C4 counterexample: `shutdown` has a first token that is none of `ls`,
`get`, `put`, yet the server replies `OK Shutting down` (not
`ERR Unknown command`) and the session loop does not continue. -/
theorem shutdown_token_not_unknown :
    ("shutdown" : String) ∉ (["ls", "get", "put"] : List String) ∧
    (processCommand [] false c4Input).trace = [.msg "OK Shutting down\n"] ∧
    (processCommand [] false c4Input).trace ≠ [.msg "ERR Unknown command\n"] ∧
    (processCommand [] false c4Input).outcome ≠ .cont := by
  refine ⟨by decide, by decide, by decide, by decide⟩

/-- C4 (amended): a command whose lowercased first token is none of `ls`,
`get`, `put`, `shutdown` gets the reply `ERR Unknown command` and the session
continues with state untouched. -/
theorem unknown_command_err_and_continue
    (st : Store) (fl : Bool) (inp : CmdInput) (tok : String) (rest : List String)
    (h1 : pySplit inp.line = tok :: rest)
    (h2 : pyLower tok ∉ (["ls", "get", "put", "shutdown"] : List String)) :
    processCommand st fl inp
      = ⟨st, fl, [.msg "ERR Unknown command\n"], .cont, [], none⟩ := by
  rw [processCommand_parts st fl inp tok rest h1]
  have h2a : pyLower tok ≠ "ls" := fun hh => h2 (by simp [hh])
  have h2b : pyLower tok ≠ "get" := fun hh => h2 (by simp [hh])
  have h2c : pyLower tok ≠ "put" := fun hh => h2 (by simp [hh])
  have h2d : pyLower tok ≠ "shutdown" := fun hh => h2 (by simp [hh])
  exact dispatch_other st fl inp tok rest h2a h2b h2c h2d

/-- C4 amended-claim witness at the unrecognized command `foo bar`. -/
theorem unknown_command_err_and_continue_witness :
    processCommand [] false c4wInput
      = ⟨[], false, [.msg "ERR Unknown command\n"], .cont, [], none⟩ :=
  unknown_command_err_and_continue [] false c4wInput "foo" ["bar"]
    (by decide) (by decide)

/-- C5 counterexample: the trailing token `-5` does not parse as a
non-negative integer (it is negative), yet the server does not reply
`ERR Invalid filesize`: it replies `OK` then `OK Uploaded`, reading no
payload, and the session continues. -/
theorem negative_size_put_accepted :
    pyInt? "-5" = some (-5) ∧
    (processCommand [] false c5Input).trace = [.msg "OK", .msg "OK Uploaded\n"] ∧
    (processCommand [] false c5Input).trace ≠ [.msg "ERR Invalid filesize\n"] ∧
    (processCommand [] false c5Input).payloadRead = [] ∧
    (processCommand [] false c5Input).outcome = .cont := by
  refine ⟨by decide, by decide, by decide, by decide, by decide⟩

/-- C5 (amended): a `put` whose trailing token does not parse as an integer at
all (sign permitted) is answered `ERR Invalid filesize`; no payload byte is
read, no blob is created, and the session continues awaiting the next
command. -/
theorem nonint_size_put_invalid_filesize
    (st : Store) (fl : Bool) (inp : CmdInput) (tok : String) (rest : List String)
    (h1 : pySplit inp.line = tok :: rest)
    (h2 : pyLower tok = "put")
    (h3 : 2 ≤ rest.length)
    (h4 : pyInt? (rest.getLastD "") = none) :
    processCommand st fl inp
      = ⟨st, fl, [.msg "ERR Invalid filesize\n"], .cont, [], none⟩ := by
  rw [processCommand_parts st fl inp tok rest h1,
    dispatch_put st fl inp tok rest h2, putCmd_noparse st fl inp rest h3 h4]

/-- C5 amended-claim witness at the non-integer size token `b`. -/
theorem nonint_size_put_invalid_filesize_witness :
    processCommand [] false c5wInput
      = ⟨[], false, [.msg "ERR Invalid filesize\n"], .cont, [], none⟩ :=
  nonint_size_put_invalid_filesize [] false c5wInput "put" ["a", "b"]
    (by decide) (by decide) (by decide) (by decide)

/-- C10: a `put` whose trailing token parses as a negative integer is not
rejected: the server replies `OK`, the read loop guard `remaining > 0` is
immediately false so zero payload bytes are read, and an empty blob is
committed under the sanitized name with the reply `OK Uploaded`. -/
theorem negative_size_put_empty_blob
    (st : Store) (fl : Bool) (inp : CmdInput) (name sizeTok : String) (z : Int)
    (h1 : pySplit inp.line = ["put", name, sizeTok])
    (h2 : pyInt? sizeTok = some z)
    (h3 : z < 0)
    (h4 : inp.uploadOk = true) :
    processCommand st fl inp =
      ⟨storePut st (pyBasename (pyJoin [name])) ⟨[], inp.newLastMod⟩,
       fl, [.msg "OK", .msg "OK Uploaded\n"], .cont, [],
       some (pyBasename (pyJoin [name]))⟩ := by
  rw [processCommand_parts st fl inp "put" [name, sizeTok] h1,
    dispatch_put st fl inp "put" [name, sizeTok] (by decide),
    putCmd_parsed st fl inp [name, sizeTok] z (by simp)
      (show pyInt? ([name, sizeTok].getLastD "") = some z from h2),
    h4, if_pos rfl, recvUpload_nonpos inp.payload z h3.le]
  rfl

/-- C10 witness at the concrete command `put name -5`. -/
theorem negative_size_put_empty_blob_witness :
    processCommand [] false c10Input =
      ⟨storePut [] (pyBasename (pyJoin ["name"])) ⟨[], c10Input.newLastMod⟩,
       false, [.msg "OK", .msg "OK Uploaded\n"], .cont, [],
       some (pyBasename (pyJoin ["name"]))⟩ :=
  negative_size_put_empty_blob [] false c10Input "name" "-5" (-5)
    (by decide) (by decide) (by decide) rfl

/-- C1: a successful `put` of `S` bytes under name `N` (the connection
delivers all `S` announced bytes, the backend commit succeeds) followed by a
`get` of the same name `N` (nonempty client ack, no transport fault) returns
exactly the uploaded byte sequence, and the `get` response header announces
exactly `S`. -/
theorem put_then_get_roundtrip
    (st : Store) (fl fl' : Bool) (inp1 inp2 : CmdInput)
    (name sizeTok : String) (S : Nat) (data : List Nat)
    (h1 : pySplit inp1.line = ["put", name, sizeTok])
    (h2 : pyInt? sizeTok = some (S : Int))
    (h3 : inp1.payload = data)
    (h4 : data.length = S)
    (h5 : inp1.uploadOk = true)
    (h6 : pySplit inp2.line = ["get", name])
    (h7 : inp2.ack ≠ [])
    (h8 : inp2.bodyTrunc = none)
    (h9 : inp2.sendChunkOk = fun _ => true) :
    (processCommand (processCommand st fl inp1).store fl' inp2).trace.head?
        = some (.msg ("OK " ++ toString S)) ∧
    bodyBytes (processCommand (processCommand st fl inp1).store fl' inp2).trace
        = data := by
  have hrecv : recvUpload inp1.payload ((S : Nat) : Int) = (data, 0) := by
    rw [h3, ← h4]
    exact recvUpload_exact data
  have hput : processCommand st fl inp1
      = ⟨storePut st (pyBasename (pyJoin [name])) ⟨data, inp1.newLastMod⟩,
         fl, [.msg "OK", .msg "OK Uploaded\n"], .cont, data,
         some (pyBasename (pyJoin [name]))⟩ := by
    rw [processCommand_parts st fl inp1 "put" [name, sizeTok] h1,
      dispatch_put st fl inp1 "put" [name, sizeTok] (by decide),
      putCmd_parsed st fl inp1 [name, sizeTok] (S : Int) (by simp)
        (show pyInt? ([name, sizeTok].getLastD "") = some (S : Int) from h2),
      h5, if_pos rfl, hrecv]
    rfl
  have hfound : storeGet (processCommand st fl inp1).store (pyBasename (pyJoin [name]))
      = some ⟨data, inp1.newLastMod⟩ := by
    rw [hput]
    exact storeGet_storePut_self _ _ _
  have hget : processCommand (processCommand st fl inp1).store fl' inp2
      = ⟨(processCommand st fl inp1).store, fl',
         .msg ("OK " ++ toString data.length) ::
           (streamBody data (fun _ => true)).map Wire.chunk,
         .cont, [], some (pyBasename (pyJoin [name]))⟩ := by
    rw [processCommand_parts _ fl' inp2 "get" [name] h6,
      dispatch_get _ fl' inp2 "get" [name] (by decide),
      getCmd_found _ fl' inp2 name [] ⟨data, inp1.newLastMod⟩ hfound,
      if_neg h7, h8, h9]
    rfl
  rw [hget]
  refine ⟨?_, ?_⟩
  · rw [h4]
    rfl
  · rw [bodyBytes_msg]
    exact streamBody_true data

/-- C1 witness: a 3-byte upload of `f` followed by a download of `f`. -/
theorem put_then_get_roundtrip_witness :
    (processCommand (processCommand [] false c1PutInput).store false c1GetInput).trace.head?
        = some (.msg ("OK " ++ toString (3 : Nat))) ∧
    bodyBytes
        (processCommand (processCommand [] false c1PutInput).store false c1GetInput).trace
        = [7, 8, 9] :=
  put_then_get_roundtrip [] false false c1PutInput c1GetInput "f" "3" 3 [7, 8, 9]
    (by decide) (by decide) rfl (by decide) rfl (by decide) (by decide) rfl rfl

/-- C6: for every `get` and for every size-parsing `put`, the key handed to
the storage backend is `os.path.basename` of the caller-supplied name (the
space-rejoined tokens), and a basename never contains a path separator, so the
effective key is always a single path segment. -/
theorem backend_key_sanitized :
    (∀ (st : Store) (fl : Bool) (inp : CmdInput) (tok r : String) (rs : List String),
        pySplit inp.line = tok :: r :: rs → pyLower tok = "get" →
        (processCommand st fl inp).backendKey
          = some (pyBasename (pyJoin (r :: rs)))) ∧
    (∀ (st : Store) (fl : Bool) (inp : CmdInput) (tok : String) (rest : List String)
        (z : Int),
        pySplit inp.line = tok :: rest → pyLower tok = "put" →
        2 ≤ rest.length → pyInt? (rest.getLastD "") = some z →
        (processCommand st fl inp).backendKey
          = some (pyBasename (pyJoin rest.dropLast))) ∧
    (∀ s : String, '/' ∉ (pyBasename s).data) := by
  refine ⟨?_, ?_, pyBasename_no_slash⟩
  · intro st fl inp tok r rs h1 h2
    rw [processCommand_parts st fl inp tok (r :: rs) h1,
      dispatch_get st fl inp tok (r :: rs) h2]
    exact getCmd_key st fl inp r rs
  · intro st fl inp tok rest z h1 h2 h3 h4
    rw [processCommand_parts st fl inp tok rest h1,
      dispatch_put st fl inp tok rest h2, putCmd_parsed st fl inp rest z h3 h4]
    cases hu : inp.uploadOk with
    | true => rfl
    | false => rfl

/-- C6 witness: a traversal-shaped `get` name and `put` name both collapse to
their final path segment. -/
theorem backend_key_sanitized_witness :
    (processCommand [] false c6GetInput).backendKey
        = some (pyBasename (pyJoin ["a/b"])) ∧
    (processCommand [] false c6PutInput).backendKey
        = some (pyBasename (pyJoin (["../x", "3"].dropLast))) ∧
    '/' ∉ (pyBasename "a/b").data ∧
    pyBasename "a/b" = "b" ∧ pyBasename "../x" = "x" :=
  ⟨backend_key_sanitized.1 [] false c6GetInput "get" "a/b" [] (by decide) (by decide),
   backend_key_sanitized.2.1 [] false c6PutInput "put" ["../x", "3"] 3
     (by decide) (by decide) (by decide) (by decide),
   backend_key_sanitized.2.2 "a/b", by decide, by decide⟩

/-- C7: on a successful `get` lookup the response trace starts with the
`OK <size>` header and every later element is a body chunk; if the
acknowledgment read returns no bytes (or raises, which the code folds into the
same case), no body byte at all is sent for the command. -/
theorem get_header_before_body_requires_ack
    (st : Store) (fl : Bool) (inp : CmdInput) (tok r : String) (rs : List String)
    (blob : Blob)
    (h1 : pySplit inp.line = tok :: r :: rs)
    (h2 : pyLower tok = "get")
    (h3 : storeGet st (pyBasename (pyJoin (r :: rs))) = some blob) :
    (∃ cs : List (List Nat),
        (processCommand st fl inp).trace
          = .msg ("OK " ++ toString blob.content.length) :: cs.map Wire.chunk) ∧
    (inp.ack = [] →
        (processCommand st fl inp).trace
          = [.msg ("OK " ++ toString blob.content.length)]) := by
  rw [processCommand_parts st fl inp tok (r :: rs) h1,
    dispatch_get st fl inp tok (r :: rs) h2, getCmd_found st fl inp r rs blob h3]
  by_cases hack : inp.ack = []
  · rw [if_pos hack]
    exact ⟨⟨[], rfl⟩, fun _ => rfl⟩
  · rw [if_neg hack]
    exact ⟨⟨streamBody (deliveredBody blob.content inp.bodyTrunc) inp.sendChunkOk, rfl⟩,
      fun hh => absurd hh hack⟩

/-- C7 witness: a `get g` whose peer sends no acknowledgment bytes receives
the header and not a single body byte. -/
theorem get_header_before_body_requires_ack_witness :
    (∃ cs : List (List Nat),
        (processCommand c7Store false c7Input).trace
          = .msg ("OK " ++ toString ([4, 5] : List Nat).length) :: cs.map Wire.chunk) ∧
    (c7Input.ack = [] →
        (processCommand c7Store false c7Input).trace
          = [.msg ("OK " ++ toString ([4, 5] : List Nat).length)]) :=
  get_header_before_body_requires_ack c7Store false c7Input "get" "g" [] ⟨[4, 5], "tm"⟩
    (by decide) (by decide) (by decide)

/-- C8: for every session (any event sequence, hence every exit path: peer
EOF, socket error, shutdown, unhandled exception, pending), the registry
trace is exactly one lock-protected registration followed by exactly one
lock-protected deregistration; the connection is in the registry right after
registering, and after the `finally` deregistration the registry is restored
and no longer contains the connection. -/
theorem registry_paired_register_deregister
    (conn : Nat) (events : List SessEvent) (reg : List Nat) (st : Store) (fl : Bool)
    (h : conn ∉ reg) :
    (handle_client conn events reg st fl).regTrace
        = [.register true, .deregister true] ∧
    conn ∈ (handle_client conn events reg st fl).regAtStart ∧
    (handle_client conn events reg st fl).regAtEnd = reg ∧
    conn ∉ (handle_client conn events reg st fl).regAtEnd := by
  have hmem : conn ∈ reg ++ [conn] :=
    List.mem_append_right _ (List.mem_singleton_self conn)
  have hend : (handle_client conn events reg st fl).regAtEnd = reg := by
    show (if conn ∈ reg ++ [conn] then (reg ++ [conn]).erase conn else reg ++ [conn])
        = reg
    rw [if_pos hmem, erase_append_singleton conn reg h]
  exact ⟨rfl, hmem, hend, by rw [hend]; exact h⟩

/-- C8 witness: a fresh connection on a session that dies by exception. -/
theorem registry_paired_register_deregister_witness :
    (handle_client 0 [SessEvent.raise] [] [] false).regTrace
        = [.register true, .deregister true] ∧
    0 ∈ (handle_client 0 [SessEvent.raise] [] [] false).regAtStart ∧
    (handle_client 0 [SessEvent.raise] [] [] false).regAtEnd = [] ∧
    0 ∉ (handle_client 0 [SessEvent.raise] [] [] false).regAtEnd :=
  registry_paired_register_deregister 0 [SessEvent.raise] [] [] false (by decide)

/-- C9: the client input `shutdown` (any letter case, no authentication
required) makes the server reply `OK Shutting down`, set the process-wide
shutdown flag, and terminate the issuing session; with the flag set the
accept loop accepts no further connection, and the shutdown broadcast
force-closes every registered session. -/
theorem shutdown_command_effects :
    (∀ st : Store, processCommand st false shutdownCmdInput
        = ⟨st, true, [.msg "OK Shutting down\n"], .brk, [], none⟩) ∧
    (∀ (conn : Nat) (events : List SessEvent) (reg : List Nat) (st : Store),
        (handle_client conn (.data shutdownCmdInput :: events) reg st false).exit
            = .brk ∧
        (handle_client conn (.data shutdownCmdInput :: events) reg st false).flag
            = true) ∧
    (∀ evs : List AcceptEvent, acceptLoop evs true = []) ∧
    (∀ (reg : List Nat) (c : Nat), c ∈ reg →
        (c, closeActions) ∈ shutdownBroadcast reg) := by
  refine ⟨?_, ?_, ?_, ?_⟩
  · intro st
    exact processCommand_shutdown st false shutdownCmdInput "ShUtDoWn" []
      (by decide) (by decide)
  · intro conn events reg st
    refine ⟨?_, ?_⟩
    · show (session_loop (.data shutdownCmdInput :: events) st false).exit = .brk
      rw [session_loop_shutdown]
    · show (session_loop (.data shutdownCmdInput :: events) st false).flag = true
      rw [session_loop_shutdown]
  · intro evs
    cases evs with
    | nil => rfl
    | cons e rest => simp [acceptLoop]
  · intro reg c h
    exact List.mem_map_of_mem _ h

/-- C9 witness: concrete shutdown session, halted accept loop, broadcast entry
for a registered connection. -/
theorem shutdown_command_effects_witness :
    processCommand [] false shutdownCmdInput
        = ⟨[], true, [.msg "OK Shutting down\n"], .brk, [], none⟩ ∧
    (handle_client 0 [.data shutdownCmdInput] [] [] false).exit = .brk ∧
    acceptLoop [.accept 3] true = [] ∧
    (5, closeActions) ∈ shutdownBroadcast [5] :=
  ⟨shutdown_command_effects.1 [],
   (shutdown_command_effects.2.1 0 [] [] []).1,
   shutdown_command_effects.2.2.1 [.accept 3],
   shutdown_command_effects.2.2.2 [5] 5 (by decide)⟩

end FtpServer
